import Mathlib

/-! WebSocket wrapper (`websocket/websocket.go`)

A shallow embedding of the GopherJS WebSocket binding.  The JavaScript side
(the `WebSocket` constructor found in the global scope and the methods of the
objects it makes) is not part of the Go sources, so it is a parameter of every
definition: a `Transport` over an arbitrary state type.  Go code that calls into
JavaScript is written in state-passing style over a `World`, which carries the
transport state together with the list of calls the Go code has made so far.

A Go call either returns or panics; `Outcome` records which, and a Go function
with a deferred `recover` is a function from the outcome of its body to the
outcome seen by its caller.
-/

namespace websocket

/-! ## Values that cross the Go/JavaScript boundary -/

/-- A `*js.Object`: a handle on a JavaScript object, identified by a reference
number chosen by the transport. -/
structure js.Object where
  ref : Nat
  deriving DecidableEq, Repr

/-- A `js.Error` (a JavaScript exception seen from Go), with the diagnostic
message it carries. -/
structure js.Error where
  message : String
  deriving DecidableEq, Repr

/-- Arguments and results of JavaScript calls.  A Go `func(*js.Object)` passed to
JavaScript is identified by a number, as Go functions cannot be compared. -/
inductive JsValue where
  | undefined
  | str (s : String)
  | num (n : Int)
  | bool (b : Bool)
  | func (id : Nat)
  | object (o : js.Object)
  deriving DecidableEq, Repr

/-- The non-nil interface value carried by a Go panic.  Its dynamic type is
either `*js.Error` (the pointer itself may be nil: `jsError none`) or anything
else (`other`, with a description of the value). -/
inductive PanicValue where
  | jsError (p : Option js.Error)
  | other (descr : String)
  deriving DecidableEq, Repr

/-- How a Go call ends: it returns a value, or it panics with a value. -/
inductive Outcome (α : Type) where
  | returned (a : α)
  | panicked (e : PanicValue)
  deriving DecidableEq, Repr

/-! ## The transport -/

/-- The JavaScript environment the package runs against, over its own state `σ`.
`construct` is `js.Global.Get("WebSocket").New(url)`, `call` is
`object.Call(method, args...)`, and `readyState` is the numeric `readyState`
property of an object. -/
structure Transport (σ : Type) where
  construct : σ → String → σ × Outcome js.Object
  call : σ → js.Object → String → List JsValue → σ × Outcome JsValue
  readyState : σ → js.Object → Nat

/-- One call made by Go code into the transport. -/
inductive Call where
  | construct (url : String)
  | method (target : js.Object) (name : String) (args : List JsValue)
  deriving DecidableEq, Repr

/-- The transport state together with every call made into the transport so
far, oldest first. -/
structure World (σ : Type) where
  st : σ
  log : List Call

/-- Go `js.Global.Get("WebSocket").New(url)`, recorded in the log. -/
def jsNew {σ : Type} (T : Transport σ) (w : World σ) (url : String) :
    World σ × Outcome js.Object :=
  let r := T.construct w.st url
  (⟨r.1, w.log ++ [Call.construct url]⟩, r.2)

/-- Go `object.Call(name, args...)`, recorded in the log. -/
def jsCall {σ : Type} (T : Transport σ) (w : World σ) (object : js.Object)
    (name : String) (args : List JsValue) : World σ × Outcome JsValue :=
  let r := T.call w.st object name args
  (⟨r.1, w.log ++ [Call.method object name args]⟩, r.2)

/-! ## `ReadyState` -/

/-- Go `type ReadyState uint16`: a natural number below `2 ^ 16`. -/
abbrev ReadyState := Nat

/-- Go `Connecting ReadyState = 0`: the connection has not yet been established. -/
def Connecting : ReadyState := 0

/-- Go `Open ReadyState = 1`: the connection is established. -/
def Open : ReadyState := 1

/-- Go `Closing ReadyState = 2`: the closing handshake is under way. -/
def Closing : ReadyState := 2

/-- Go `Closed ReadyState = 3`: the connection is closed or could not be opened. -/
def Closed : ReadyState := 3

/-- Go `func (rs ReadyState) String() string`: the cases of the `switch` are tried
in order. -/
def ReadyState.String (rs : ReadyState) : String :=
  if rs = Connecting then "Connecting"
  else if rs = Open then "Open"
  else if rs = Closing then "Closing"
  else if rs = Closed then "Closed"
  else "Unknown"

/-! ## `WSURL` -/

/-- The part of `dom.Location` that `WSURL` reads. -/
structure Location where
  Protocol : String
  Host : String

/-- The part of `dom.HTMLDocument` that `WSURL` reads. -/
structure HTMLDocument where
  Location : Location

/-- Go `func WSURL(doc dom.HTMLDocument, relativeLocation string) string`. -/
def WSURL (doc : HTMLDocument) (relativeLocation : String) : String :=
  let p := doc.Location.Protocol
  let h := doc.Location.Host
  let newP := if p = "http:" then "ws://" else "wss://"
  newP ++ h ++ relativeLocation

/-! ## `WebSocket` -/

/-- Go `type WebSocket struct { *js.Object; ... }`.  The other fields of the Go
struct carry a `js:"..."` tag: they are not stored on the Go side but read from
the wrapped object each time. -/
structure WebSocket where
  Object : js.Object
  deriving DecidableEq, Repr

/-- The field `ReadyState ReadyState` with tag `js:"readyState"`: the object's
`readyState` property converted to `uint16`. -/
def WebSocket.ReadyState {σ : Type} (T : Transport σ) (w : World σ)
    (ws : WebSocket) : ReadyState :=
  T.readyState w.st ws.Object % 2 ^ 16

/-- Go `const closeNormalClosure = 1000`. -/
def closeNormalClosure : Int := 1000

/-- Go `func New(url string) (ws *WebSocket, err error)`.  The results are
`(ws, err)`, `none` standing for `nil`.  When the constructor panics the
deferred function runs with `e` the recovered value. -/
def New {σ : Type} (T : Transport σ) (w : World σ) (url : String) :
    World σ × Outcome (Option WebSocket × Option js.Error) :=
  let r := jsNew T w url
  match r.2 with
  | .returned object => (r.1, .returned (some ⟨object⟩, none))
  | .panicked e =>
    match e with
    | .jsError (some jsErr) => (r.1, .returned (none, some jsErr))
    | _ => (r.1, .panicked e)

/-- Go `func (ws *WebSocket) RemoveEventListener(typ string, useCapture bool,
listener func(*js.Object))`. -/
def WebSocket.RemoveEventListener {σ : Type} (T : Transport σ) (w : World σ)
    (ws : WebSocket) (typ : String) (useCapture : Bool) (listener : Nat) :
    World σ × Outcome Unit :=
  let r := jsCall T w ws.Object "removeEventListener"
    [.str typ, .func listener, .bool useCapture]
  match r.2 with
  | .returned _ => (r.1, .returned ())
  | .panicked e => (r.1, .panicked e)

/-- Go `func (ws *WebSocket) Send(data interface{}) (err error)`. -/
def WebSocket.Send {σ : Type} (T : Transport σ) (w : World σ) (ws : WebSocket)
    (data : JsValue) : World σ × Outcome (Option js.Error) :=
  let r := jsCall T w ws.Object "send" [data]
  match r.2 with
  | .returned _ => (r.1, .returned none)
  | .panicked e =>
    match e with
    | .jsError (some jsErr) => (r.1, .returned (some jsErr))
    | _ => (r.1, .panicked e)

/-- Go `func (ws *WebSocket) Close() (err error)`. -/
def WebSocket.Close {σ : Type} (T : Transport σ) (w : World σ) (ws : WebSocket) :
    World σ × Outcome (Option js.Error) :=
  let r := jsCall T w ws.Object "close" [.num closeNormalClosure]
  match r.2 with
  | .returned _ => (r.1, .returned none)
  | .panicked e =>
    match e with
    | .jsError (some jsErr) => (r.1, .returned (some jsErr))
    | _ => (r.1, .panicked e)

/-! ## Event listeners -/

/-- A listener held by the transport for a target object and an event kind. -/
structure Registration where
  target : js.Object
  kind : String
  listener : Nat
  useCapture : Bool
  deriving DecidableEq, Repr

/-- Modelled from the spec: the methods of an event target, whose state is the
list of the registrations it holds, in registration order.  With `unique` false
the registrations are the multiset of the spec: `addEventListener` always adds
one at the end.  With `unique` true a registration that is already held is
ignored, as event targets of the DOM do.  `removeEventListener` drops one
matching registration. -/
def EventTarget.call (unique : Bool) (regs : List Registration) (o : js.Object)
    (name : String) (args : List JsValue) : List Registration × Outcome JsValue :=
  match args with
  | [.str k, .func l, .bool c] =>
    if name = "addEventListener" then
      if unique ∧ (⟨o, k, l, c⟩ : Registration) ∈ regs then (regs, .returned .undefined)
      else (regs ++ [⟨o, k, l, c⟩], .returned .undefined)
    else if name = "removeEventListener" then
      (regs.erase ⟨o, k, l, c⟩, .returned .undefined)
    else (regs, .returned .undefined)
  | _ => (regs, .returned .undefined)

/-- The `readyState` of every socket made so far; socket `i` is object `i`. -/
structure Browser where
  sockets : List Nat
  deriving DecidableEq, Repr

/-- The constructor: a URL whose scheme is not `ws` or `wss` is a `SyntaxError`;
otherwise a new socket in state `CONNECTING` is made. -/
def Browser.construct (b : Browser) (url : String) : Browser × Outcome js.Object :=
  if url.data.take 5 = "ws://".data ∨ url.data.take 6 = "wss://".data then
    (⟨b.sockets ++ [Connecting]⟩, .returned ⟨b.sockets.length⟩)
  else
    (b, .panicked (.jsError (some ⟨"SyntaxError"⟩)))

/-- The methods.  An object that is no socket has none of them (`TypeError`).
`send` throws `InvalidStateError` while `CONNECTING` and is accepted in every
other state; `close` does nothing when `CLOSING` or `CLOSED` and otherwise
moves the socket to `CLOSING`. -/
def Browser.call (b : Browser) (o : js.Object) (name : String) (_args : List JsValue) :
    Browser × Outcome JsValue :=
  match b.sockets.get? o.ref with
  | none => (b, .panicked (.jsError (some ⟨"TypeError"⟩)))
  | some s =>
    if name = "send" then
      if s = Connecting then (b, .panicked (.jsError (some ⟨"InvalidStateError"⟩)))
      else (b, .returned .undefined)
    else if name = "close" then
      if s = Closing ∨ s = Closed then (b, .returned .undefined)
      else (⟨b.sockets.set o.ref Closing⟩, .returned .undefined)
    else (b, .returned .undefined)

/-- The transport made of the above. -/
def browser : Transport Browser where
  construct := Browser.construct
  call := Browser.call
  readyState := fun b o => b.sockets.getD o.ref Closed

/-- A page that has made no socket and no call yet. -/
def freshWorld : World Browser := ⟨⟨[]⟩, []⟩

/-- The world after `New("ws://example.test/socket")` on a fresh page. -/
def connectingWorld : World Browser := (New browser freshWorld "ws://example.test/socket").1

/-- The connection made by that `New`. -/
def socket0 : WebSocket := ⟨⟨0⟩⟩

/-- The world after `New` and then one `Close` of the connection. -/
def closingWorld : World Browser := (socket0.Close browser connectingWorld).1

/-- A transport all of whose calls panic with the value `p`, whatever they are
given.  It gives the statements on panics concrete inputs. -/
def raising (p : PanicValue) : Transport Unit where
  construct := fun s _ => (s, .panicked p)
  call := fun s _ _ _ => (s, .panicked p)
  readyState := fun _ _ => Closed

/-- The world of `raising` before any call. -/
def raisingWorld : World Unit := ⟨(), []⟩

end websocket

namespace websocket

/-! ## Lemmas on the embedding -/

/-- The log after `jsCall`: the call is appended. -/
theorem jsCall_log {σ : Type} (T : Transport σ) (w : World σ) (o : js.Object)
    (name : String) (args : List JsValue) :
    (jsCall T w o name args).1.log = w.log ++ [Call.method o name args] := rfl

/-- The transport state after `jsCall` is the one the transport produced. -/
theorem jsCall_st {σ : Type} (T : Transport σ) (w : World σ) (o : js.Object)
    (name : String) (args : List JsValue) :
    (jsCall T w o name args).1.st = (T.call w.st o name args).1 := rfl

/-- The world after `Close` is the world after its one transport call. -/
theorem Close_world {σ : Type} (T : Transport σ) (w : World σ) (ws : WebSocket) :
    (ws.Close T w).1 = (jsCall T w ws.Object "close" [.num closeNormalClosure]).1 := by
  unfold WebSocket.Close
  cases h : (jsCall T w ws.Object "close" [.num closeNormalClosure]).2 with
  | returned v => simp [h]
  | panicked e =>
    cases e with
    | jsError p => cases p <;> simp [h]
    | other d => simp [h]

/-- The world after `Send` is the world after its one transport call. -/
theorem Send_world {σ : Type} (T : Transport σ) (w : World σ) (ws : WebSocket)
    (data : JsValue) :
    (ws.Send T w data).1 = (jsCall T w ws.Object "send" [data]).1 := by
  unfold WebSocket.Send
  cases h : (jsCall T w ws.Object "send" [data]).2 with
  | returned v => simp [h]
  | panicked e =>
    cases e with
    | jsError p => cases p <;> simp [h]
    | other d => simp [h]

/-- The outcome of `Close` as a function of the outcome of the transport call. -/
theorem Close_outcome {σ : Type} (T : Transport σ) (w : World σ) (ws : WebSocket) :
    (ws.Close T w).2 =
      match (T.call w.st ws.Object "close" [.num closeNormalClosure]).2 with
      | .returned _ => .returned none
      | .panicked (.jsError (some jsErr)) => .returned (some jsErr)
      | .panicked e => .panicked e := by
  unfold WebSocket.Close jsCall
  cases h : (T.call w.st ws.Object "close" [.num closeNormalClosure]).2 with
  | returned v => simp [h]
  | panicked e =>
    cases e with
    | jsError p => cases p <;> simp [h]
    | other d => simp [h]

/-- The outcome of `Send` as a function of the outcome of the transport call. -/
theorem Send_outcome {σ : Type} (T : Transport σ) (w : World σ) (ws : WebSocket)
    (data : JsValue) :
    (ws.Send T w data).2 =
      match (T.call w.st ws.Object "send" [data]).2 with
      | .returned _ => .returned none
      | .panicked (.jsError (some jsErr)) => .returned (some jsErr)
      | .panicked e => .panicked e := by
  unfold WebSocket.Send jsCall
  cases h : (T.call w.st ws.Object "send" [data]).2 with
  | returned v => simp [h]
  | panicked e =>
    cases e with
    | jsError p => cases p <;> simp [h]
    | other d => simp [h]

/-- The outcome of `New` as a function of the outcome of the constructor call. -/
theorem New_outcome {σ : Type} (T : Transport σ) (w : World σ) (url : String) :
    (New T w url).2 =
      match (T.construct w.st url).2 with
      | .returned object => .returned (some ⟨object⟩, none)
      | .panicked (.jsError (some jsErr)) => .returned (none, some jsErr)
      | .panicked e => .panicked e := by
  unfold New jsNew
  cases h : (T.construct w.st url).2 with
  | returned v => simp [h]
  | panicked e =>
    cases e with
    | jsError p => cases p <;> simp [h]
    | other d => simp [h]

/-! ## `New` -/

/-- C1: when the WebSocket constructor raises a JavaScript error `e` during
`New(url)`, `New` does not panic: it returns normally, the connection it returns
is nil (so none that could be seen Open) and the error it returns is `e`. -/
theorem New_constructor_error {σ : Type} (T : Transport σ) (w : World σ) (url : String)
    (e : js.Error)
    (h : (T.construct w.st url).2 = .panicked (.jsError (some e))) :
    (New T w url).2 = .returned (none, some e) := by
  unfold New jsNew
  simp [h]

/-- C1 at a URL the reference transport rejects: `New("not a url")` returns a nil
connection and the `SyntaxError`. -/
theorem New_constructor_error_witness :
    (browser.construct freshWorld.st "not a url").2
        = .panicked (.jsError (some ⟨"SyntaxError"⟩)) ∧
      (New browser freshWorld "not a url").2 = .returned (none, some ⟨"SyntaxError"⟩) :=
  ⟨by decide, New_constructor_error browser freshWorld "not a url" ⟨"SyntaxError"⟩ (by decide)⟩

/-- C2 fails: on the reference transport, after `New` and `Close` the connection
is Closing, not Open, yet `Send` makes the transport's `send` call and returns a
nil error. -/
theorem Send_not_open_counterexample :
    socket0.ReadyState browser closingWorld = Closing ∧
      Closing ≠ Open ∧
      (socket0.Send browser closingWorld (.str "hello")).2 = .returned none ∧
      (socket0.Send browser closingWorld (.str "hello")).1.log
        = closingWorld.log ++ [Call.method socket0.Object "send" [.str "hello"]] := by
  decide

/-- C2 as amended: whatever the `ReadyState` of the connection, `Send` makes
exactly one call into the transport, the `send` call on the wrapped object, and
it returns a non-nil error exactly when that call raises a JavaScript error. -/
theorem Send_any_state {σ : Type} (T : Transport σ) (w : World σ) (ws : WebSocket)
    (data : JsValue) :
    (ws.Send T w data).1.log = w.log ++ [Call.method ws.Object "send" [data]] ∧
      ((∃ e, (ws.Send T w data).2 = .returned (some e)) ↔
        ∃ e, (T.call w.st ws.Object "send" [data]).2 = .panicked (.jsError (some e))) := by
  refine ⟨?_, ?_⟩
  · rw [Send_world, jsCall_log]
  · rw [Send_outcome]
    cases h : (T.call w.st ws.Object "send" [data]).2 with
    | returned v => simp
    | panicked e =>
      cases e with
      | jsError p => cases p <;> simp
      | other d => simp

/-- C6: when the transport's `send` call raises the JavaScript error `e`, `Send`
returns exactly `e`, and conversely; `Send` returns nil exactly when the call
returns without raising; the one call made hands `data` to the transport as
its only argument, unchanged. -/
theorem Send_result {σ : Type} (T : Transport σ) (w : World σ) (ws : WebSocket)
    (data : JsValue) (e : js.Error) :
    ((ws.Send T w data).2 = .returned (some e) ↔
        (T.call w.st ws.Object "send" [data]).2 = .panicked (.jsError (some e))) ∧
      ((ws.Send T w data).2 = .returned none ↔
        ∃ v, (T.call w.st ws.Object "send" [data]).2 = .returned v) ∧
      (ws.Send T w data).1.log = w.log ++ [Call.method ws.Object "send" [data]] ∧
      (ws.Send T w data).1.st = (T.call w.st ws.Object "send" [data]).1 := by
  refine ⟨?_, ?_, ?_, ?_⟩
  · rw [Send_outcome]
    cases h : (T.call w.st ws.Object "send" [data]).2 with
    | returned v => simp
    | panicked p =>
      cases p with
      | jsError q => cases q <;> simp
      | other d => simp
  · rw [Send_outcome]
    cases h : (T.call w.st ws.Object "send" [data]).2 with
    | returned v => simp
    | panicked p =>
      cases p with
      | jsError q => cases q <;> simp
      | other d => simp
  · rw [Send_world, jsCall_log]
  · rw [Send_world, jsCall_st]

/-- C6 on the reference transport: a `send` rejected while Connecting gives the
`InvalidStateError` back. -/
theorem Send_result_witness :
    (socket0.Send browser connectingWorld (.str "hello")).2
      = .returned (some ⟨"InvalidStateError"⟩) :=
  (Send_result browser connectingWorld socket0 (.str "hello") ⟨"InvalidStateError"⟩).1.mpr
    (by decide)

/-! ## `Close` -/

/-- C3 fails: on the reference transport, a second `Close` of a connection that
is already Closing still issues a close request to the transport. -/
theorem Close_idempotent_counterexample :
    socket0.ReadyState browser closingWorld = Closing ∧
      (socket0.Close browser closingWorld).1.log
        = closingWorld.log ++ [Call.method socket0.Object "close" [.num 1000]] ∧
      (socket0.Close browser closingWorld).1.log ≠ closingWorld.log := by
  decide

/-- C3 as amended: on a connection that is already Closing or Closed, `Close`
issues one close request (code 1000) to the transport and nothing else; when
the transport takes that request as a no-op (it returns without raising and
leaves its state as it was), `Close` returns a nil error and the connection
state is unchanged. -/
theorem Close_closing_or_closed {σ : Type} (T : Transport σ) (w : World σ)
    (ws : WebSocket) (v : JsValue)
    (hs : ws.ReadyState T w = Closing ∨ ws.ReadyState T w = Closed)
    (hT : T.call w.st ws.Object "close" [.num 1000] = (w.st, .returned v)) :
    (ws.Close T w).2 = .returned none ∧
      (ws.Close T w).1.st = w.st ∧
      ws.ReadyState T (ws.Close T w).1 = ws.ReadyState T w ∧
      (ws.ReadyState T (ws.Close T w).1 = Closing ∨
        ws.ReadyState T (ws.Close T w).1 = Closed) ∧
      (ws.Close T w).1.log = w.log ++ [Call.method ws.Object "close" [.num 1000]] := by
  have hT2 : T.call w.st ws.Object "close" [.num closeNormalClosure] = (w.st, .returned v) := hT
  have h1 : (ws.Close T w).1.st = w.st := by
    rw [Close_world, jsCall_st, hT2]
  have h2 : ws.ReadyState T (ws.Close T w).1 = ws.ReadyState T w := by
    unfold WebSocket.ReadyState
    rw [h1]
  refine ⟨?_, h1, h2, ?_, ?_⟩
  · rw [Close_outcome, hT2]
  · rw [h2]
    exact hs
  · rw [Close_world, jsCall_log]
    rfl

/-- C3 as amended, on the reference transport: the second of two successive
`Close` calls returns nil, leaves the state Closing, and adds one close request
to the log. -/
theorem Close_closing_or_closed_witness :
    (socket0.Close browser closingWorld).2 = .returned none ∧
      socket0.ReadyState browser (socket0.Close browser closingWorld).1 = Closing ∧
      (socket0.Close browser closingWorld).1.log
        = closingWorld.log ++ [Call.method socket0.Object "close" [.num 1000]] :=
  have h := Close_closing_or_closed browser closingWorld socket0 .undefined
    (Or.inl (by decide)) (by decide)
  ⟨h.1, h.2.2.1.trans (by decide), h.2.2.2.2⟩

/-- C4: every `Close` makes exactly one call into the transport: the `close`
method of the wrapped object with the single argument 1000, the value of
`closeNormalClosure`. -/
theorem Close_code {σ : Type} (T : Transport σ) (w : World σ) (ws : WebSocket) :
    (ws.Close T w).1.log = w.log ++ [Call.method ws.Object "close" [.num 1000]] ∧
      closeNormalClosure = 1000 := by
  refine ⟨?_, rfl⟩
  rw [Close_world, jsCall_log]
  rfl

/-- C5: `Close` returns the non-nil error `e` exactly when the transport's close
call raised the JavaScript error `e`, and returns nil exactly when that call
returned without raising. -/
theorem Close_error_iff {σ : Type} (T : Transport σ) (w : World σ) (ws : WebSocket)
    (e : js.Error) :
    ((ws.Close T w).2 = .returned (some e) ↔
        (T.call w.st ws.Object "close" [.num 1000]).2 = .panicked (.jsError (some e))) ∧
      ((ws.Close T w).2 = .returned none ↔
        ∃ v, (T.call w.st ws.Object "close" [.num 1000]).2 = .returned v) := by
  have hc : (1000 : Int) = closeNormalClosure := rfl
  rw [hc, Close_outcome]
  refine ⟨?_, ?_⟩
  · cases h : (T.call w.st ws.Object "close" [.num closeNormalClosure]).2 with
    | returned v => simp
    | panicked p =>
      cases p with
      | jsError q => cases q <;> simp
      | other d => simp
  · cases h : (T.call w.st ws.Object "close" [.num closeNormalClosure]).2 with
    | returned v => simp
    | panicked p =>
      cases p with
      | jsError q => cases q <;> simp
      | other d => simp

/-- C5 on the reference transport: `Close` on a wrapper around an object that is
no socket returns the `TypeError` the call raised. -/
theorem Close_error_iff_witness :
    (WebSocket.Close browser freshWorld ⟨⟨7⟩⟩).2 = .returned (some ⟨"TypeError"⟩) :=
  (Close_error_iff browser freshWorld ⟨⟨7⟩⟩ ⟨"TypeError"⟩).1.mpr (by decide)

/-! ## `AddEventListener` -/

/-- C9: `ReadyState.String` is defined on every value; it returns "Connecting",
"Open", "Closing", "Closed" for 0, 1, 2, 3, which are the four states
Connecting, Open, Closing, Closed, pairwise distinct and with pairwise distinct
names; and it returns "Unknown" for every other value and for no named state. -/
theorem ReadyState_String_values (rs : ReadyState) :
    ReadyState.String 0 = "Connecting" ∧
      ReadyState.String 1 = "Open" ∧
      ReadyState.String 2 = "Closing" ∧
      ReadyState.String 3 = "Closed" ∧
      [Connecting, Open, Closing, Closed] = [0, 1, 2, 3] ∧
      [Connecting, Open, Closing, Closed].Nodup ∧
      ([Connecting, Open, Closing, Closed].map ReadyState.String).Nodup ∧
      (ReadyState.String rs = "Unknown" ↔ 3 < rs) := by
  refine ⟨by decide, by decide, by decide, by decide, rfl, by decide, by decide, ?_⟩
  unfold ReadyState.String Connecting Open Closing Closed
  split_ifs with h0 h1 h2 h3
  · subst h0; decide
  · subst h1; decide
  · subst h2; decide
  · subst h3; decide
  · have key : ∀ n : Nat, ¬ n = 0 → ¬ n = 1 → ¬ n = 2 → ¬ n = 3 → 3 < n := by
      intro n
      omega
    exact ⟨fun _ => key rs h0 h1 h2 h3, fun _ => rfl⟩

/-! ## `WSURL` -/

/-- C10: `WSURL` returns "ws://" followed by the host and the relative location
when the protocol of the document location is exactly "http:", and "wss://"
followed by them for every other protocol; the result begins with "ws://" or
"wss://", ends with the relative location, and begins with "ws://" only for the
protocol "http:". -/
theorem WSURL_scheme (doc : HTMLDocument) (r : String) :
    ((doc.Location.Protocol = "http:" ∧ WSURL doc r = "ws://" ++ doc.Location.Host ++ r) ∨
        (doc.Location.Protocol ≠ "http:" ∧
          WSURL doc r = "wss://" ++ doc.Location.Host ++ r)) ∧
      ("ws://".data <+: (WSURL doc r).data ∨ "wss://".data <+: (WSURL doc r).data) ∧
      r.data <:+ (WSURL doc r).data ∧
      ("ws://".data <+: (WSURL doc r).data ↔ doc.Location.Protocol = "http:") := by
  by_cases hp : doc.Location.Protocol = "http:"
  · simp [WSURL, hp, String.data_append]
    exact ⟨"ws://".data ++ doc.Location.Host.data, by simp⟩
  · simp [WSURL, hp, String.data_append]
    exact ⟨"wss://".data ++ doc.Location.Host.data, by simp⟩

/-! ## Panics that are not JavaScript errors -/

/-- C11: in `New`, `Send` and `Close` alike, the operation panics with the value
`p` exactly when the transport call panicked with `p` and `p` is a nil-valued
`*js.Error` or a value that is no `*js.Error`: such a panic is raised again with
the same value and is not turned into a result; and the operation returns a
non-nil error exactly when the transport call panicked with a non-nil
`*js.Error`. -/
theorem panic_reraised {σ : Type} (T : Transport σ) (w : World σ) (url : String)
    (ws : WebSocket) (data : JsValue) (p : PanicValue) :
    ((New T w url).2 = .panicked p ↔
        ((T.construct w.st url).2 = .panicked p ∧
          (p = .jsError none ∨ ∃ d, p = .other d))) ∧
      ((ws.Send T w data).2 = .panicked p ↔
        ((T.call w.st ws.Object "send" [data]).2 = .panicked p ∧
          (p = .jsError none ∨ ∃ d, p = .other d))) ∧
      ((ws.Close T w).2 = .panicked p ↔
        ((T.call w.st ws.Object "close" [.num 1000]).2 = .panicked p ∧
          (p = .jsError none ∨ ∃ d, p = .other d))) ∧
      ((∃ c e, (New T w url).2 = .returned (c, some e)) ↔
        ∃ e, (T.construct w.st url).2 = .panicked (.jsError (some e))) ∧
      ((∃ e, (ws.Send T w data).2 = .returned (some e)) ↔
        ∃ e, (T.call w.st ws.Object "send" [data]).2 = .panicked (.jsError (some e))) ∧
      ((∃ e, (ws.Close T w).2 = .returned (some e)) ↔
        ∃ e, (T.call w.st ws.Object "close" [.num 1000]).2
          = .panicked (.jsError (some e))) := by
  have hc : (1000 : Int) = closeNormalClosure := rfl
  rw [hc, New_outcome, Send_outcome, Close_outcome]
  refine ⟨?_, ?_, ?_, ?_, ?_, ?_⟩
  · cases h : (T.construct w.st url).2 with
    | returned v => simp
    | panicked q =>
      cases q with
      | jsError o =>
        cases o <;> cases p <;> simp <;> intro hq <;> simp [← hq]
      | other d => cases p <;> simp
  · cases h : (T.call w.st ws.Object "send" [data]).2 with
    | returned v => simp
    | panicked q =>
      cases q with
      | jsError o =>
        cases o <;> cases p <;> simp <;> intro hq <;> simp [← hq]
      | other d => cases p <;> simp
  · cases h : (T.call w.st ws.Object "close" [.num closeNormalClosure]).2 with
    | returned v => simp
    | panicked q =>
      cases q with
      | jsError o =>
        cases o <;> cases p <;> simp <;> intro hq <;> simp [← hq]
      | other d => cases p <;> simp
  · cases h : (T.construct w.st url).2 with
    | returned v => simp
    | panicked q =>
      cases q with
      | jsError o => cases o <;> simp
      | other d => simp
  · cases h : (T.call w.st ws.Object "send" [data]).2 with
    | returned v => simp
    | panicked q =>
      cases q with
      | jsError o => cases o <;> simp
      | other d => simp
  · cases h : (T.call w.st ws.Object "close" [.num closeNormalClosure]).2 with
    | returned v => simp
    | panicked q =>
      cases q with
      | jsError o => cases o <;> simp
      | other d => simp

/-- C11 on a transport whose calls panic with a nil-valued `*js.Error`: `New`,
`Send` and `Close` all panic with that same value. -/
theorem panic_reraised_witness :
    (New (raising (.jsError none)) raisingWorld "ws://example.test/socket").2
        = .panicked (.jsError none) ∧
      (socket0.Send (raising (.jsError none)) raisingWorld (.str "hello")).2
        = .panicked (.jsError none) ∧
      (socket0.Close (raising (.jsError none)) raisingWorld).2 = .panicked (.jsError none) :=
  have h := panic_reraised (raising (.jsError none)) raisingWorld "ws://example.test/socket"
    socket0 (.str "hello") (.jsError none)
  ⟨h.1.mpr ⟨rfl, Or.inl rfl⟩, h.2.1.mpr ⟨rfl, Or.inl rfl⟩, h.2.2.1.mpr ⟨rfl, Or.inl rfl⟩⟩

end websocket
